import Mathlib

/-!
Shallow embedding of the three capture-client scripts of the notion-lite
repository (quick-capture-client.py, working-capture.py, test-capture.py).

Modelling conventions:
* The outcome of the single `requests.post` call is supplied as an explicit
  environment value (`TransportOutcome`): either an HTTP response was
  received, or the call raised a Python exception (connection error,
  timeout, DNS failure, ...).
* An HTTP response carries its status code, its body text, and the outcome
  of `response.json()` (a parsed JSON value, or the decode-error message
  that the call would raise).
* Python exception flow inside each function body is modelled in the
  `Except PyExn` monad, written out as explicit matches so each source line
  is visible; the `try ... except` wrappers of the source become
  `tryExcept` / `tryExceptConn`.
* Each function additionally returns the list of outbound HTTP calls it
  performed, in order; the source performs the single `requests.post`
  unconditionally inside its `try` block, so the recorded list is built at
  that call site.
* `print` statements, GUI code and the interactive drivers are not
  modelled: they write to the console only and do not affect the value
  returned to the caller or the outbound traffic.
-/

/-- JSON values, as produced by `response.json()` (Python dicts/lists/strings). -/
inductive Json where
  | null
  | bool (b : Bool)
  | num (n : Int)
  | str (s : String)
  | arr (elems : List Json)
  | obj (fields : List (String × Json))

/-- Python `dict.get(key)`: the value at `key`, or `none` (Python `None`)
when the key is absent or the value is not a dict. -/
def Json.get : Json → String → Option Json
  | Json.obj fields, key => fields.lookup key
  | _, _ => none

/-- Python exceptions that can arise during a capture call:
`requests.exceptions.ConnectionError`, the JSON decode error raised by
`response.json()`, and any other exception (e.g. a timeout). Each carries
its message `str(e)`. -/
inductive PyExn where
  | connectionError (m : String)
  | jsonDecodeError (m : String)
  | otherError (m : String)

/-- Python `str(e)` on an exception. -/
def PyExn.msg : PyExn → String
  | PyExn.connectionError m => m
  | PyExn.jsonDecodeError m => m
  | PyExn.otherError m => m

/-- An HTTP response as seen by the client: `response.status_code`,
`response.text`, and the outcome of parsing the body as JSON (what
`response.json()` returns, or the decode-error message it raises). -/
structure HttpResponse where
  status_code : Nat
  text : String
  json_result : Except String Json

/-- Behaviour of the environment for the one outbound `requests.post` of a
call: either an HTTP response of some status arrives (redirects already
followed by the transport), or the transport raises an exception. -/
inductive TransportOutcome where
  | resp (r : HttpResponse)
  | raised (e : PyExn)

/-- One outbound HTTP call as the client assembles it: method, URL,
headers, and the JSON request body as the ordered list of its fields. -/
structure HttpCall where
  method : String
  url : String
  headers : List (String × String)
  body : List (String × Json)

/-- Field names of the JSON request body of a call, in order. -/
def HttpCall.bodyKeys (c : HttpCall) : List String := c.body.map Prod.fst

/-- `requests.post(...)` under a given environment: returns the response or
raises the exception supplied by the environment. -/
def requests_post (env : TransportOutcome) : Except PyExn HttpResponse :=
  match env with
  | TransportOutcome.resp r => Except.ok r
  | TransportOutcome.raised e => Except.error e

/-- `response.json()`: the parsed body, or a raised JSON decode error. -/
def response_json (r : HttpResponse) : Except PyExn Json :=
  match r.json_result with
  | Except.ok v => Except.ok v
  | Except.error m => Except.error (PyExn.jsonDecodeError m)

/-- Python `try: ... except Exception as e: ...` — the handler receives
every exception raised by the body. -/
def tryExcept {α : Type} (m : Except PyExn α) (h : PyExn → Except PyExn α) :
    Except PyExn α :=
  match m with
  | Except.ok a => Except.ok a
  | Except.error e => h e

/-- Python `try: ... except requests.exceptions.ConnectionError: ...
except Exception as e: ...` — the first handler receives connection
errors, the second every other exception. -/
def tryExceptConn {α : Type} (m : Except PyExn α) (hConn : String → Except PyExn α)
    (hAll : PyExn → Except PyExn α) : Except PyExn α :=
  match m with
  | Except.ok a => Except.ok a
  | Except.error (PyExn.connectionError s) => hConn s
  | Except.error e => hAll e

namespace QuickCaptureClient

def NOTION_LITE_URL : String := "http://localhost:3002"

def API_KEY : String := "quick-capture-dev-key"

def USER_ID : String := "YOUR_USER_ID"

/-- The request `send_to_notion_lite` assembles: POST to
`NOTION_LITE_URL ++ "/api/capture"` with the api-key and content-type
headers and the three-field JSON body. -/
def requestOf (content : String) (page_title : String) : HttpCall :=
  { method := "POST"
    url := NOTION_LITE_URL ++ "/api/capture"
    headers := [("x-api-key", API_KEY), ("Content-Type", "application/json")]
    body := [("content", Json.str content), ("userId", Json.str USER_ID),
             ("pageTitle", Json.str page_title)] }

/-- `send_to_notion_lite(content, page_title="Inbox")` from
quick-capture-client.py. Returns the Python return value (a bool; wrapped
in `Except PyExn` to record whether any exception escapes the function)
together with the outbound calls performed. The `page_title` parameter is
placed after the environment so its source default `"Inbox"` can be used
by omission, as at the call sites in the script. -/
def send_to_notion_lite (content : String) (env : TransportOutcome)
    (page_title : String := "Inbox") : Except PyExn Bool × List HttpCall :=
  let req := requestOf content page_title
  let tried : Except PyExn Bool :=
    match requests_post env with
    | Except.error e => Except.error e
    | Except.ok response =>
      if response.status_code = 200 then
        match response_json response with
        | Except.error e => Except.error e
        | Except.ok _result => Except.ok true
      else
        Except.ok false
  (tryExcept tried (fun _e => Except.ok false), [req])

end QuickCaptureClient

namespace WorkingCapture

def NOTION_LITE_URL : String := "http://localhost:3002"

def API_KEY : String := "quick-capture-dev-key"

def USER_ID : String := "0bnt7oYu8zfqw09XRd3otDT8Fbo2"

/-- The request `capture_to_notion_lite` assembles (pageTitle is the
hard-coded `"Inbox"`). -/
def requestOf (content : String) : HttpCall :=
  { method := "POST"
    url := NOTION_LITE_URL ++ "/api/capture"
    headers := [("x-api-key", API_KEY), ("Content-Type", "application/json")]
    body := [("content", Json.str content), ("userId", Json.str USER_ID),
             ("pageTitle", Json.str "Inbox")] }

/-- `capture_to_notion_lite(content)` from working-capture.py. Returns the
Python pair `(success, response_dict)` (wrapped in `Except PyExn` to record
whether any exception escapes) together with the outbound calls performed.
On a non-200 status the source returns
`False, response.json() if response.text else beginObj endObj`, so an
empty body yields the empty dict and a non-empty body is parsed (a parse
failure there raises into the generic handler). -/
def capture_to_notion_lite (content : String) (env : TransportOutcome) :
    Except PyExn (Bool × Json) × List HttpCall :=
  let req := requestOf content
  let tried : Except PyExn (Bool × Json) :=
    match requests_post env with
    | Except.error e => Except.error e
    | Except.ok response =>
      if response.status_code = 200 then
        match response_json response with
        | Except.error e => Except.error e
        | Except.ok result => Except.ok (true, result)
      else
        if response.text ≠ "" then
          match response_json response with
          | Except.error e => Except.error e
          | Except.ok j => Except.ok (false, j)
        else
          Except.ok (false, Json.obj [])
  (tryExcept tried (fun e => Except.ok (false, Json.obj [("error", Json.str e.msg)])), [req])

end WorkingCapture

namespace TestCapture

def NOTION_LITE_URL : String := "http://localhost:3002"

def API_KEY : String := "quick-capture-dev-key"

def USER_ID : String := "YOUR_USER_ID_HERE"

/-- The payload `test_capture` assembles (pageTitle is the hard-coded
`"Inbox"`). -/
def requestOf (content : String) : HttpCall :=
  { method := "POST"
    url := NOTION_LITE_URL ++ "/api/capture"
    headers := [("x-api-key", API_KEY), ("Content-Type", "application/json")]
    body := [("content", Json.str content), ("userId", Json.str USER_ID),
             ("pageTitle", Json.str "Inbox")] }

/-- `test_capture(content, show_details=True)` from test-capture.py
(`show_details` only selects which diagnostics are printed and is not
modelled). Returns the Python bool (wrapped in `Except PyExn` to record
whether any exception escapes) together with the outbound calls performed.
The body first parses the response JSON inside an inner bare
`try/except` that returns `False` on parse failure, then dispatches on the
status code, returning `True` only for 200; the outer handlers catch
`ConnectionError` and every other exception, both returning `False`. -/
def test_capture (content : String) (env : TransportOutcome) :
    Except PyExn Bool × List HttpCall :=
  let req := requestOf content
  let tried : Except PyExn Bool :=
    match requests_post env with
    | Except.error e => Except.error e
    | Except.ok response =>
      match response_json response with
      | Except.error _ => Except.ok false
      | Except.ok _data =>
        if response.status_code = 200 then
          Except.ok true
        else if response.status_code = 401 then
          Except.ok false
        else if response.status_code = 400 then
          Except.ok false
        else
          Except.ok false
  (tryExceptConn tried (fun _s => Except.ok false) (fun _e => Except.ok false), [req])

end TestCapture

/-! Helper lemmas shared by the claim theorems. -/

/-- A `try/except Exception` whose handler returns normally never lets an
exception escape, whatever the body did. -/
theorem tryExcept_always_ok {α : Type} (m : Except PyExn α) (h : PyExn → α) :
    (tryExcept m (fun e => Except.ok (h e))).isOk = true := by
  cases m <;> rfl

/-- A `try/except ConnectionError/except Exception` whose two handlers
return normally never lets an exception escape. -/
theorem tryExceptConn_always_ok {α : Type} (m : Except PyExn α) (a b : α) :
    (tryExceptConn m (fun _s => Except.ok a) (fun _e => Except.ok b)).isOk = true := by
  cases m with
  | ok x => rfl
  | error e => cases e <;> rfl

/-- C1: for every content, page title, and outcome of the outbound HTTP
call (any status code, any response body, or a raised transport
exception), each capture function — `send_to_notion_lite`,
`capture_to_notion_lite`, `test_capture` — returns a result value to its
caller and never propagates an exception out of the call. -/
theorem c1_capture_never_propagates_exception (content page_title : String)
    (env : TransportOutcome) :
    (QuickCaptureClient.send_to_notion_lite content env page_title).1.isOk = true
    ∧ (WorkingCapture.capture_to_notion_lite content env).1.isOk = true
    ∧ (TestCapture.test_capture content env).1.isOk = true := by
  refine ⟨?_, ?_, ?_⟩
  · exact tryExcept_always_ok _ (fun _e => false)
  · exact tryExcept_always_ok _
      (fun e => (false, Json.obj [("error", Json.str e.msg)]))
  · exact tryExceptConn_always_ok _ false false

/-- C5: for every input combination (any content, any page title) and
every transport outcome, the JSON request body each capture function sends
contains exactly the three fields content, userId and pageTitle, and no
other fields. -/
theorem c5_request_body_exactly_three_fields (content page_title : String)
    (env : TransportOutcome) :
    ((QuickCaptureClient.send_to_notion_lite content env page_title).2.map
        HttpCall.bodyKeys = [["content", "userId", "pageTitle"]])
    ∧ ((WorkingCapture.capture_to_notion_lite content env).2.map
        HttpCall.bodyKeys = [["content", "userId", "pageTitle"]])
    ∧ ((TestCapture.test_capture content env).2.map
        HttpCall.bodyKeys = [["content", "userId", "pageTitle"]]) :=
  ⟨rfl, rfl, rfl⟩

/-- C6: for every content string — including the empty string and strings
with a leading task marker — the content field of the request body each
capture function sends is exactly the input string, with no trimming,
validation, or transformation. -/
theorem c6_content_passed_through_unmodified (content page_title : String)
    (env : TransportOutcome) :
    ((QuickCaptureClient.send_to_notion_lite content env page_title).2.map
        (fun c => c.body.lookup "content") = [some (Json.str content)])
    ∧ ((WorkingCapture.capture_to_notion_lite content env).2.map
        (fun c => c.body.lookup "content") = [some (Json.str content)])
    ∧ ((TestCapture.test_capture content env).2.map
        (fun c => c.body.lookup "content") = [some (Json.str content)]) :=
  ⟨rfl, rfl, rfl⟩

/-- C7: for every call in which the caller does not supply a page title —
`send_to_notion_lite` invoked with its default argument, and the other two
functions, which take no page-title parameter at all — the pageTitle field
of the request body sent to the service equals "Inbox". -/
theorem c7_default_page_title_is_inbox (content : String) (env : TransportOutcome) :
    ((QuickCaptureClient.send_to_notion_lite content env).2.map
        (fun c => c.body.lookup "pageTitle") = [some (Json.str "Inbox")])
    ∧ ((WorkingCapture.capture_to_notion_lite content env).2.map
        (fun c => c.body.lookup "pageTitle") = [some (Json.str "Inbox")])
    ∧ ((TestCapture.test_capture content env).2.map
        (fun c => c.body.lookup "pageTitle") = [some (Json.str "Inbox")]) :=
  ⟨rfl, rfl, rfl⟩

/-- C8: every invocation of a capture function performs exactly one
outbound HTTP POST to baseUrl/api/capture — the recorded list of outbound
calls is a one-element list whatever the transport outcome, so there is
never a retry and never a skipped send. -/
theorem c8_exactly_one_post_per_invocation (content page_title : String)
    (env : TransportOutcome) :
    ((QuickCaptureClient.send_to_notion_lite content env page_title).2.map
        (fun c => (c.method, c.url))
      = [("POST", "http://localhost:3002/api/capture")])
    ∧ ((WorkingCapture.capture_to_notion_lite content env).2.map
        (fun c => (c.method, c.url))
      = [("POST", "http://localhost:3002/api/capture")])
    ∧ ((TestCapture.test_capture content env).2.map
        (fun c => (c.method, c.url))
      = [("POST", "http://localhost:3002/api/capture")]) :=
  ⟨rfl, rfl, rfl⟩

/-- The 200-response body named in claim C2: blockId b1, pageId p1. -/
def body200 : Json := Json.obj [("blockId", Json.str "b1"), ("pageId", Json.str "p1")]

/-- C2 counterexample: at HTTP 200 with the body of the claim,
`send_to_notion_lite` returns exactly the value it returns for a 200 body
with different identifiers — the bare boolean `true` — so its success
result does not carry blockId or pageId extracted from the response,
contrary to the claim, which covers this function. -/
theorem c2_counterexample_bool_result_carries_no_ids :
    (QuickCaptureClient.send_to_notion_lite "note"
        (TransportOutcome.resp ⟨200, "ok", Except.ok body200⟩)).1
      = (QuickCaptureClient.send_to_notion_lite "note"
        (TransportOutcome.resp
          ⟨200, "ok", Except.ok (Json.obj [("blockId", Json.str "b2")])⟩)).1
    ∧ (QuickCaptureClient.send_to_notion_lite "note"
        (TransportOutcome.resp ⟨200, "ok", Except.ok body200⟩)).1
      = Except.ok true :=
  ⟨rfl, rfl⟩

/-- C2 amended: on HTTP 200 with body blockId=b1, pageId=p1,
`capture_to_notion_lite` returns a success result carrying that body, from
which get blockId = b1 and get pageId = p1; `send_to_notion_lite` returns
success (`true`) but its boolean result carries no identifiers; and a 200
response whose body lacks blockId/pageId is still a success for both. -/
theorem c2_amended_success_and_extraction (content text : String) :
    (WorkingCapture.capture_to_notion_lite content
        (TransportOutcome.resp ⟨200, text, Except.ok body200⟩)).1
      = Except.ok (true, body200)
    ∧ Json.get body200 "blockId" = some (Json.str "b1")
    ∧ Json.get body200 "pageId" = some (Json.str "p1")
    ∧ (QuickCaptureClient.send_to_notion_lite content
        (TransportOutcome.resp ⟨200, text, Except.ok body200⟩)).1
      = Except.ok true
    ∧ (WorkingCapture.capture_to_notion_lite content
        (TransportOutcome.resp ⟨200, text, Except.ok (Json.obj [])⟩)).1
      = Except.ok (true, Json.obj [])
    ∧ (QuickCaptureClient.send_to_notion_lite content
        (TransportOutcome.resp ⟨200, text, Except.ok (Json.obj [])⟩)).1
      = Except.ok true :=
  ⟨rfl, rfl, rfl, rfl, rfl, rfl⟩

/-- C3 counterexample: a transport-level failure produces a result
identical to one produced after an HTTP error response was received, so
the result returned to the caller carries no ConnectivityFailure kind
distinct from the HTTP-status error kinds: `capture_to_notion_lite` on a
connection error with message boom returns the same pair as on an HTTP 500
whose body parses to a dict with error=boom, and `send_to_notion_lite` on
the same connection error returns the same bare `false` as on an HTTP 503
response. -/
theorem c3_counterexample_no_distinct_connectivity_kind :
    (WorkingCapture.capture_to_notion_lite "note"
        (TransportOutcome.raised (PyExn.connectionError "boom"))).1
      = (WorkingCapture.capture_to_notion_lite "note"
        (TransportOutcome.resp ⟨500, "body",
            Except.ok (Json.obj [("error", Json.str "boom")])⟩)).1
    ∧ (QuickCaptureClient.send_to_notion_lite "note"
        (TransportOutcome.raised (PyExn.connectionError "boom"))).1
      = (QuickCaptureClient.send_to_notion_lite "note"
        (TransportOutcome.resp ⟨503, "unavailable", Except.ok Json.null⟩)).1 :=
  ⟨rfl, rfl⟩

/-- C3 amended: for every transport-level exception (connection refused,
timeout, DNS failure, any other raised error), each capture function
returns a failure result — `send_to_notion_lite` and `test_capture` the
bare `false`, `capture_to_notion_lite` the pair of `false` and a dict with
the exception message under the key error — but the returned value carries
no ConnectivityFailure kind that distinguishes it from HTTP-status
failures. -/
theorem c3_amended_transport_failure_returns_failure (content : String) (e : PyExn) :
    (QuickCaptureClient.send_to_notion_lite content (TransportOutcome.raised e)).1
      = Except.ok false
    ∧ (WorkingCapture.capture_to_notion_lite content (TransportOutcome.raised e)).1
      = Except.ok (false, Json.obj [("error", Json.str e.msg)])
    ∧ (TestCapture.test_capture content (TransportOutcome.raised e)).1
      = Except.ok false := by
  refine ⟨rfl, rfl, ?_⟩
  cases e <;> rfl

/-- C4 counterexample: on HTTP 401 with body error=invalid key,
`test_capture` returns the same bare `false` that it returns on an HTTP
400 response, and `send_to_notion_lite` returns the same bare `false` it
returns on a transport failure — so the failure result carries no
AuthenticationFailure kind distinguishable by the caller from the other
error kinds. -/
theorem c4_counterexample_auth_failure_indistinguishable :
    (TestCapture.test_capture "note"
        (TransportOutcome.resp ⟨401, "a",
            Except.ok (Json.obj [("error", Json.str "invalid key")])⟩)).1
      = (TestCapture.test_capture "note"
        (TransportOutcome.resp ⟨400, "b",
            Except.ok (Json.obj [("error", Json.str "missing userId")])⟩)).1
    ∧ (QuickCaptureClient.send_to_notion_lite "note"
        (TransportOutcome.resp ⟨401, "a",
            Except.ok (Json.obj [("error", Json.str "invalid key")])⟩)).1
      = (QuickCaptureClient.send_to_notion_lite "note"
        (TransportOutcome.raised (PyExn.connectionError "no route to host"))).1 :=
  ⟨rfl, rfl⟩

/-- C4 amended: on HTTP 401 with body error=invalid key, `test_capture`
and `send_to_notion_lite` return a failure result (`false`), but the
boolean carries no AuthenticationFailure kind distinguishable by the
caller from the other error kinds. -/
theorem c4_amended_401_returns_failure (content text : String) :
    (TestCapture.test_capture content
        (TransportOutcome.resp ⟨401, text,
            Except.ok (Json.obj [("error", Json.str "invalid key")])⟩)).1
      = Except.ok false
    ∧ (QuickCaptureClient.send_to_notion_lite content
        (TransportOutcome.resp ⟨401, text,
            Except.ok (Json.obj [("error", Json.str "invalid key")])⟩)).1
      = Except.ok false :=
  ⟨rfl, rfl⟩

/-- C9: for every call where the service responds with HTTP 200 but a body
that is not valid JSON (the parse raises, whatever the body text and
message), `send_to_notion_lite` and `test_capture` return the failure
value `false`, not success: success requires both status 200 and a
parseable JSON body. -/
theorem c9_status_200_unparseable_body_is_failure
    (content page_title text emsg : String) :
    (QuickCaptureClient.send_to_notion_lite content
        (TransportOutcome.resp ⟨200, text, Except.error emsg⟩) page_title).1
      = Except.ok false
    ∧ (TestCapture.test_capture content
        (TransportOutcome.resp ⟨200, text, Except.error emsg⟩)).1
      = Except.ok false :=
  ⟨rfl, rfl⟩

/-- C10: in `capture_to_notion_lite`, for every non-200 HTTP response: an
empty body text yields the result pair of `false` and the empty dict, with
no error detail; and a non-empty body text that is not valid JSON raises
in the parse, diverting the call into the generic exception handler, which
returns `false` paired with a dict holding the exception message under the
key error, instead of the HTTP-status-based classification. -/
theorem c10_non_200_body_handling (content : String) (status : Nat)
    (jr : Except String Json) (text emsg : String)
    (hs : status ≠ 200) (ht : text ≠ "") :
    (WorkingCapture.capture_to_notion_lite content
        (TransportOutcome.resp ⟨status, "", jr⟩)).1
      = Except.ok (false, Json.obj [])
    ∧ (WorkingCapture.capture_to_notion_lite content
        (TransportOutcome.resp ⟨status, text, Except.error emsg⟩)).1
      = Except.ok (false, Json.obj [("error", Json.str emsg)]) := by
  constructor
  · simp [WorkingCapture.capture_to_notion_lite, requests_post, response_json,
      tryExcept, hs]
  · simp [WorkingCapture.capture_to_notion_lite, requests_post, response_json,
      tryExcept, PyExn.msg, hs, ht]

/-- Witness for C10 at status 500 with the two concrete bodies. -/
theorem c10_non_200_body_handling_witness :
    (WorkingCapture.capture_to_notion_lite "note"
        (TransportOutcome.resp ⟨500, "", Except.error "x"⟩)).1
      = Except.ok (false, Json.obj [])
    ∧ (WorkingCapture.capture_to_notion_lite "note"
        (TransportOutcome.resp ⟨500, "oops", Except.error "bad body"⟩)).1
      = Except.ok (false, Json.obj [("error", Json.str "bad body")]) :=
  c10_non_200_body_handling "note" 500 (Except.error "x") "oops" "bad body"
    (by decide) (by decide)
